import Mathlib

/-!
Verification of the image-compressor web application (src/app.py).

The development shallowly embeds the program's pure logic and its
state-passing request handlers:

* configuration constants (quality bounds, default quality, cache TTL);
* quality parsing and clamping (app.py lines 108-114);
* the PNG compress-level mapping (app.py lines 157-162), with Python's
  round-half-to-even rounding modelled exactly over the rationals
  (the floating-point computation in the source agrees with the exact
  rational value at every integer quality 1..100, including the tie at
  quality 50 where the float argument is exactly 4.5);
* the alpha/palette flattening step (app.py lines 146-148);
* the output extension and mime-type derivation (app.py lines 55-65, 180-183);
* the in-memory download cache, modelled as an association list with
  Python-dict semantics (single binding per key maintained by the
  operations), its expiry sweep `_cleanup_expired_cache` (lines 43-48),
  and the two request handlers `compress_image` (lines 84-203) and
  `download_image` (lines 206-231) as functions from an explicit request
  description, the cache, and the observed clock values to an outcome
  and the new cache.

External collaborators (Flask, Pillow) are represented by the data they
hand the program: whether the file part is present, whether Pillow's
verify/open/save calls succeed, the decoded image's mode, and the encoded
payload bytes.  Each call the source makes to datetime.utcnow() is one
explicit Time parameter.
-/

namespace ImageCompressor

/-- Time stamps, as an abstract integer clock (the source uses
datetime.utcnow(); only order and addition of a TTL matter). -/
abbrev Time := Int

/-- Configuration constant DEFAULT_QUALITY from app.py line 13. -/
def DEFAULT_QUALITY : Int := 40

/-- Configuration constant MAX_QUALITY from app.py line 14. -/
def MAX_QUALITY : Int := 100

/-- Configuration constant MIN_QUALITY from app.py line 15. -/
def MIN_QUALITY : Int := 1

/-- Configuration constant DOWNLOAD_CACHE_TTL_SECONDS from app.py line 21. -/
def DOWNLOAD_CACHE_TTL_SECONDS : Int := 300

/-- Configuration constant ALLOWED_OUTPUT_FORMATS from app.py line 12. -/
def ALLOWED_OUTPUT_FORMATS : List String := ["JPEG", "PNG", "WEBP"]

/-- Python's built-in round applied to an exact rational: round half to
even (banker's rounding).  Used to model `round(...)` at app.py line 160. -/
def pyRound (x : ℚ) : ℤ :=
  if x - ⌊x⌋ < 1/2 then ⌊x⌋
  else if 1/2 < x - ⌊x⌋ then ⌊x⌋ + 1
  else if ⌊x⌋ % 2 = 0 then ⌊x⌋ else ⌊x⌋ + 1

/-- Python's `round(x, 2)` modelled over the rationals: round the value
scaled by 100 half-to-even and scale back.  Models app.py lines 189-191. -/
def round2 (x : ℚ) : ℚ := (pyRound (100 * x) : ℚ) / 100

/-- Quality parsing, app.py lines 108-111: the form field is either absent
(`none`, Flask's get returns the default 40), present but not parseable as
an int (`some none`, the except branch yields 40), or an integer
(`some (some q)`). -/
def parseQuality : Option (Option Int) → Int
  | none => DEFAULT_QUALITY
  | some none => DEFAULT_QUALITY
  | some (some q) => q

/-- Quality clamping, app.py line 114: `max(MIN_QUALITY, min(MAX_QUALITY, quality))`. -/
def clampQuality (q : Int) : Int := max MIN_QUALITY (min MAX_QUALITY q)

/-- PNG compress level, app.py line 160:
`max(0, min(9, round((100 - quality) / (100 / 9))))`.  The float division
agrees with the exact rational 9*(100-q)/100 at every integer quality. -/
def pngCompressLevel (quality : Int) : Int :=
  max 0 (min 9 (pyRound (((100 - quality : Int) : ℚ) / (100 / 9))))

/-- Python's str.upper on ASCII format names, written as a character map
so that it evaluates by kernel reduction. -/
def pyUpper (s : String) : String := ⟨s.data.map Char.toUpper⟩

/-- Python's str.lower on ASCII format names, written as a character map
so that it evaluates by kernel reduction. -/
def pyLower (s : String) : String := ⟨s.data.map Char.toLower⟩

/-- Pillow image modes relevant to this program (Image.mode values). -/
inductive ImageMode where
  | L | P | RGB | RGBA | LA | PA | CMYK
deriving DecidableEq, Repr

/-- Spec-side predicate, following the spec's words "the source has an
alpha channel": the Pillow modes that carry an alpha channel are RGBA,
LA and PA.  This is not a definition from the source; it is the
comparison point for the refinement claim about flattening. -/
def specHasAlpha : ImageMode → Bool
  | .RGBA => true
  | .LA => true
  | .PA => true
  | _ => false

/-- Flattening step, app.py lines 147-148:
`if img.mode in ("RGBA", "P") and out_format != "PNG": img = img.convert("RGB")`. -/
def convertForSave (mode : ImageMode) (out_format : String) : ImageMode :=
  if (mode = .RGBA ∨ mode = .P) ∧ out_format ≠ "PNG" then .RGB else mode

/-- Output extension, app.py lines 55-65 (`_safe_output_extension`).
The source upper-cases its argument and lower-cases the fallback; callers
pass an already upper-cased format. -/
def safeOutputExtension (fmt : String) : String :=
  let f := pyUpper fmt
  if f = "JPEG" then "jpg"
  else if f = "PNG" then "png"
  else if f = "WEBP" then "webp"
  else pyLower f

/-- Cache entry, app.py lines 36-38: a download id maps to the tuple
(bytes, mimetype, filename, expiry_datetime). -/
structure DownloadEntry where
  payload : List Nat
  mimetype : String
  filename : String
  expiry : Time
deriving DecidableEq, Repr

/-- The in-memory download cache `app.download_cache`, a Python dict
modelled as an association list; every operation below keeps at most one
binding per key, matching dict semantics. -/
abbrev Cache := List (String × DownloadEntry)

/-- Removal of one key, as performed by `dict.pop(k, None)` on the stored
map (app.py lines 47-48 and 214). -/
def cacheErase (c : Cache) (k : String) : Cache :=
  c.filter (fun p => p.1 != k)

/-- Key assignment `app.download_cache[download_id] = entry`, app.py
line 185: replaces any existing binding for the key. -/
def cacheSet (c : Cache) (k : String) (v : DownloadEntry) : Cache :=
  cacheErase c k ++ [(k, v)]

/-- Expiry sweep `_cleanup_expired_cache`, app.py lines 43-48: drop every
entry whose expiry is less than or equal to the observed now. -/
def cleanupExpiredCache (now : Time) (c : Cache) : Cache :=
  c.filter (fun p => !(decide (p.2.expiry ≤ now)))

/-- Flash message shown when the popped id is absent, app.py line 216. -/
def MSG_UNAVAILABLE : String := "Download is no longer available or has expired."

/-- Flash message shown when the popped entry fails the pop-time expiry
check, app.py line 222. -/
def MSG_EXPIRED : String := "Download has expired."

/-- Outcome of the download route: either the bytes are served as an
attachment with the stored mimetype and filename (app.py lines 226-231),
or the user is redirected to the index with a flash message. -/
inductive DownloadOutcome where
  | served (payload : List Nat) (mimetype filename : String)
  | errorRedirect (msg : String)
deriving DecidableEq, Repr

/-- The download route `download_image`, app.py lines 206-231.  The
parameter n1 is the clock value datetime.utcnow() observed by the
cleanup sweep (line 45) and n2 the one observed by the pop-time expiry
check (line 221); in the source n1 is sampled before n2. -/
def downloadImage (c : Cache) (download_id : String) (n1 n2 : Time) :
    DownloadOutcome × Cache :=
  match List.lookup download_id (cleanupExpiredCache n1 c) with
  | none => (.errorRedirect MSG_UNAVAILABLE, cleanupExpiredCache n1 c)
  | some e =>
    if e.expiry ≤ n2 then
      (.errorRedirect MSG_EXPIRED, cacheErase (cleanupExpiredCache n1 c) download_id)
    else
      (.served e.payload e.mimetype e.filename,
       cacheErase (cleanupExpiredCache n1 c) download_id)

/-- Description of one upload request as the compress route observes it
through Flask and Pillow, app.py lines 84-171: whether a file part is
present, the uploaded filename, the raw format and quality form fields,
the measured size of the upload in bytes, the decoded image's mode,
whether Pillow's verify, re-open and save calls succeed, and the bytes
the encoder produces.  The quality field is `none` when absent,
`some none` when present but not an integer literal, `some (some q)`
when it parses as q. -/
structure CompressRequest where
  hasFilePart : Bool
  filename : String
  formatField : Option String
  qualityField : Option (Option Int)
  origBytes : Nat
  imageMode : ImageMode
  verifyOk : Bool
  reopenOk : Bool
  encodeOk : Bool
  compressedPayload : List Nat
deriving DecidableEq, Repr

/-- Effective output format, app.py line 103:
`(request.form.get("format") or "JPEG").upper()`.  Python's `or` replaces
both a missing field and an empty string by the default. -/
def effectiveFormat (req : CompressRequest) : String :=
  pyUpper (match req.formatField with
           | none => "JPEG"
           | some s => if s = "" then "JPEG" else s)

/-- Effective quality, app.py lines 109-114: parse with default 40, then
clamp. -/
def effectiveQuality (req : CompressRequest) : Int :=
  clampQuality (parseQuality req.qualityField)

/-- Compression percentage, app.py lines 173-177: guarded division. -/
def compressionPercent (orig_size_kb compressed_size_kb : ℚ) : ℚ :=
  if orig_size_kb > 0 then
    100 * (orig_size_kb - compressed_size_kb) / orig_size_kb
  else 0

/-- Original upload size in KB, app.py line 122. -/
def origSizeKB (req : CompressRequest) : ℚ := (req.origBytes : ℚ) / 1024

/-- Compressed size in KB, app.py line 172. -/
def compressedSizeKB (req : CompressRequest) : ℚ :=
  ((req.compressedPayload.length : ℚ)) / 1024

/-- Stored suggested filename, app.py lines 181-182. -/
def outputFilename (req : CompressRequest) : String :=
  "compressed." ++ safeOutputExtension (effectiveFormat req)

/-- Stored mime type, app.py line 183:
`f"image/{ext if ext != 'jpg' else 'jpeg'}"`. -/
def outputMimetype (req : CompressRequest) : String :=
  "image/" ++ (let ext := safeOutputExtension (effectiveFormat req);
               if ext = "jpg" then "jpeg" else ext)

/-- Cache entry built by a successful compression, app.py lines 179-185:
payload, mimetype, filename and expiry = now + TTL. -/
def mkEntry (req : CompressRequest) (now : Time) : DownloadEntry :=
  { payload := req.compressedPayload
    mimetype := outputMimetype req
    filename := outputFilename req
    expiry := now + DOWNLOAD_CACHE_TTL_SECONDS }

/-- Result summary rendered on success, app.py lines 188-196. -/
structure ResultView where
  original_kb : ℚ
  compressed_kb : ℚ
  percent : ℚ
  format : String
  quality : Int
  download_id : String
  filename : String
deriving DecidableEq, Repr

/-- Result record built on success, app.py lines 188-196. -/
def mkResult (req : CompressRequest) (genId : String) : ResultView :=
  { original_kb := round2 (origSizeKB req)
    compressed_kb := round2 (compressedSizeKB req)
    percent := round2 (compressionPercent (origSizeKB req) (compressedSizeKB req))
    format := effectiveFormat req
    quality := effectiveQuality req
    download_id := genId
    filename := outputFilename req }

/-- Outcome of the compress route: either the index page with the result
summary, or a redirect with a flash message. -/
inductive CompressOutcome where
  | resultPage (r : ResultView)
  | errorRedirect (msg : String)
deriving DecidableEq, Repr

/-- Decides whether a compress outcome is the success page. -/
def CompressOutcome.isResult : CompressOutcome → Bool
  | .resultPage _ => true
  | .errorRedirect _ => false

/-- The compress route `compress_image`, app.py lines 84-203, as a
function of the request description, the cache, the clock value observed
during the request, and the id produced by uuid4 (line 180; the generator
is nondeterministic, so the id is a parameter).  Flash messages carrying
interpolated exception text are modelled without that text.  The mode
conversion of lines 146-148 and the save keyword computation of lines
152-162 configure Pillow's encoder, whose output is req.compressedPayload
when req.encodeOk holds. -/
def compressImage (req : CompressRequest) (c : Cache) (now : Time)
    (genId : String) : CompressOutcome × Cache :=
  if req.hasFilePart = false then
    (.errorRedirect "No file part in request.", cleanupExpiredCache now c)
  else if req.filename = "" then
    (.errorRedirect "No file selected.", cleanupExpiredCache now c)
  else if ALLOWED_OUTPUT_FORMATS.contains (effectiveFormat req) = false then
    (.errorRedirect "Unsupported output format selected.", cleanupExpiredCache now c)
  else if req.verifyOk = false then
    (.errorRedirect "Uploaded file is not a valid image.", cleanupExpiredCache now c)
  else if req.reopenOk = false then
    (.errorRedirect "Cannot open image after verification.", cleanupExpiredCache now c)
  else if req.encodeOk = false then
    (.errorRedirect "Error saving compressed image.", cleanupExpiredCache now c)
  else
    (.resultPage (mkResult req genId),
     cacheSet (cleanupExpiredCache now c) genId (mkEntry req now))

/-- One cache-touching request, for stating that a popped id never
resurrects across later traffic. -/
inductive Op where
  | download (id : String) (n1 n2 : Time)
  | compress (req : CompressRequest) (now : Time) (genId : String)

/-- The id an operation would bind in the cache, if any. -/
def Op.insertedId : Op → Option String
  | .download _ _ _ => none
  | .compress _ _ genId => some genId

/-- Runs a trace of requests against the cache, left to right. -/
def runOps : List Op → Cache → Cache
  | [], c => c
  | .download id n1 n2 :: rest, c => runOps rest (downloadImage c id n1 n2).2
  | .compress req now genId :: rest, c => runOps rest (compressImage req c now genId).2

/-- Holds when no operation of the trace stores an entry under the id. -/
def NoInsertOf (id : String) (ops : List Op) : Prop :=
  ∀ op ∈ ops, op.insertedId ≠ some id

/-- The id carried by a compress outcome, if it rendered the result page. -/
def CompressOutcome.downloadIdProduced : CompressOutcome → Option String
  | .resultPage r => some r.download_id
  | .errorRedirect _ => none

/-- Concrete upload request used to instantiate the theorems: a 2 KiB PNG
upload converted to PNG at quality 80, with every external step
succeeding and a two-byte encoder output. -/
def reqW : CompressRequest :=
  { hasFilePart := true, filename := "photo.png", formatField := some "PNG",
    qualityField := some (some 80), origBytes := 2048, imageMode := .RGB,
    verifyOk := true, reopenOk := true, encodeOk := true,
    compressedPayload := [7, 7] }

/-- Concrete cache entry expiring at time 10, for instantiating the
theorems about popping. -/
def entryW : DownloadEntry :=
  { payload := [1, 2], mimetype := "image/png", filename := "compressed.png",
    expiry := 10 }

/-- Concrete live cache entry expiring at time 500, for instantiating the
collision behaviour of the insert. -/
def oldEntryW : DownloadEntry :=
  { payload := [9], mimetype := "image/png", filename := "compressed.png",
    expiry := 500 }

/-- Membership in the swept cache: exactly the unexpired bindings survive. -/
theorem mem_cleanup {now : Time} {c : Cache} {k : String} {e : DownloadEntry} :
    (k, e) ∈ cleanupExpiredCache now c ↔ (k, e) ∈ c ∧ ¬ e.expiry ≤ now := by
  simp [cleanupExpiredCache, List.mem_filter]

/-- A lookup misses exactly when the key has no binding at all. -/
theorem lookup_eq_none_iff {k : String} {c : Cache} :
    List.lookup k c = none ↔ ∀ e, (k, e) ∉ c := by
  induction c with
  | nil => simp
  | cons p rest ih =>
    obtain ⟨k', e'⟩ := p
    rw [List.lookup_cons]
    rcases eq_or_ne k k' with h | h
    · subst h
      simp only [beq_self_eq_true]
      constructor
      · intro h
        exact absurd h (by simp)
      · intro h
        exact ((h e') (List.mem_cons_self _ _)).elim
    · have hb : (k == k') = false := beq_eq_false_iff_ne.mpr h
      rw [hb]
      show List.lookup k rest = none ↔ _
      rw [ih]
      constructor
      · intro hr e hmem
        rcases List.mem_cons.mp hmem with heq | hmem'
        · exact h (congrArg Prod.fst heq)
        · exact hr e hmem'
      · intro hr e hmem
        exact hr e (List.mem_cons_of_mem _ hmem)

/-- A key all of whose bindings are expired misses after the sweep. -/
theorem lookup_cleanup_none {k : String} {c : Cache} {now : Time}
    (h : ∀ e, (k, e) ∈ c → e.expiry ≤ now) :
    List.lookup k (cleanupExpiredCache now c) = none := by
  rw [lookup_eq_none_iff]
  intro e hmem
  exact (mem_cleanup.mp hmem).2 (h e (mem_cleanup.mp hmem).1)

/-- An unexpired binding found by lookup survives the sweep unchanged. -/
theorem lookup_cleanup_live {k : String} {c : Cache} {now : Time} {e : DownloadEntry}
    (h : List.lookup k c = some e) (hlive : ¬ e.expiry ≤ now) :
    List.lookup k (cleanupExpiredCache now c) = some e := by
  induction c with
  | nil => simp at h
  | cons p rest ih =>
    obtain ⟨k', e'⟩ := p
    rw [List.lookup_cons] at h
    rcases eq_or_ne k k' with hk | hk
    · subst hk
      simp only [beq_self_eq_true] at h
      obtain rfl : e' = e := by simpa using h
      simp [cleanupExpiredCache, hlive, List.lookup_cons]
    · have hb : (k == k') = false := beq_eq_false_iff_ne.mpr hk
      rw [hb] at h
      by_cases hkeep : e'.expiry ≤ now
      · simpa [cleanupExpiredCache, hkeep] using ih h
      · have := ih h
        simpa [cleanupExpiredCache, hkeep, List.lookup_cons, hb] using this

/-- Membership after removing one key. -/
theorem mem_cacheErase {c : Cache} {k k' : String} {e : DownloadEntry} :
    (k', e) ∈ cacheErase c k ↔ (k', e) ∈ c ∧ k' ≠ k := by
  simp [cacheErase, List.mem_filter]

/-- Removing a key makes its lookup miss. -/
theorem lookup_cacheErase_self {c : Cache} {k : String} :
    List.lookup k (cacheErase c k) = none := by
  rw [lookup_eq_none_iff]
  intro e hmem
  exact (mem_cacheErase.mp hmem).2 rfl

/-- Membership after a dict assignment. -/
theorem mem_cacheSet {c : Cache} {k k' : String} {v e : DownloadEntry} :
    (k', e) ∈ cacheSet c k v ↔ ((k', e) ∈ c ∧ k' ≠ k) ∨ (k' = k ∧ e = v) := by
  simp only [cacheSet, List.mem_append, mem_cacheErase, List.mem_singleton, Prod.mk.injEq]

/-- Looking up the key just assigned yields the assigned entry. -/
theorem lookup_cacheSet_self {c : Cache} {k : String} {v : DownloadEntry} :
    List.lookup k (cacheSet c k v) = some v := by
  have : ∀ d : Cache, List.lookup k d = none → List.lookup k (d ++ [(k, v)]) = some v := by
    intro d
    induction d with
    | nil => simp [List.lookup_cons]
    | cons p rest ih =>
      obtain ⟨k', e'⟩ := p
      rw [List.lookup_cons]
      rcases eq_or_ne k k' with hk | hk
      · subst hk
        simp
      · have hb : (k == k') = false := beq_eq_false_iff_ne.mpr hk
        intro h
        rw [hb] at h
        simpa [List.lookup_cons, hb] using ih h
  exact this (cacheErase c k) lookup_cacheErase_self

/-- Assigning a key absent from the cache grows it by exactly one entry. -/
theorem length_cacheSet_of_absent {c : Cache} {k : String} {v : DownloadEntry}
    (h : ∀ e, (k, e) ∉ c) : (cacheSet c k v).length = c.length + 1 := by
  have herase : cacheErase c k = c := by
    apply List.filter_eq_self.mpr
    intro p hp
    obtain ⟨k', e'⟩ := p
    have : k' ≠ k := by
      intro hk
      exact h e' (hk ▸ hp)
    simpa using this
  simp [cacheSet, herase]

/-- Behaviour of the download route when the id misses after the sweep. -/
theorem downloadImage_of_lookup_none {c : Cache} {id : String} {n1 n2 : Time}
    (hl : List.lookup id (cleanupExpiredCache n1 c) = none) :
    downloadImage c id n1 n2 =
      (.errorRedirect MSG_UNAVAILABLE, cleanupExpiredCache n1 c) := by
  unfold downloadImage
  rw [hl]

/-- Behaviour of the download route when the popped entry fails the
pop-time expiry check. -/
theorem downloadImage_of_lookup_expired {c : Cache} {id : String} {n1 n2 : Time}
    {e : DownloadEntry} (hl : List.lookup id (cleanupExpiredCache n1 c) = some e)
    (hx : e.expiry ≤ n2) :
    downloadImage c id n1 n2 =
      (.errorRedirect MSG_EXPIRED, cacheErase (cleanupExpiredCache n1 c) id) := by
  unfold downloadImage
  rw [hl]
  simp [hx]

/-- Behaviour of the download route when the popped entry is live. -/
theorem downloadImage_of_lookup_live {c : Cache} {id : String} {n1 n2 : Time}
    {e : DownloadEntry} (hl : List.lookup id (cleanupExpiredCache n1 c) = some e)
    (hx : ¬ e.expiry ≤ n2) :
    downloadImage c id n1 n2 =
      (.served e.payload e.mimetype e.filename,
       cacheErase (cleanupExpiredCache n1 c) id) := by
  unfold downloadImage
  rw [hl]
  simp [hx]

/-- The id popped by the download route is absent from the cache it leaves
behind, whatever branch was taken. -/
theorem downloadImage_self_absent {c : Cache} {id : String} {n1 n2 : Time} :
    ∀ e, (id, e) ∉ (downloadImage c id n1 n2).2 := by
  intro e hmem
  rcases hl : List.lookup id (cleanupExpiredCache n1 c) with _ | e'
  · rw [downloadImage_of_lookup_none hl] at hmem
    exact (lookup_eq_none_iff.mp hl e) hmem
  · by_cases hx : e'.expiry ≤ n2
    · rw [downloadImage_of_lookup_expired hl hx] at hmem
      exact (mem_cacheErase.mp hmem).2 rfl
    · rw [downloadImage_of_lookup_live hl hx] at hmem
      exact (mem_cacheErase.mp hmem).2 rfl

/-- The download route never adds bindings. -/
theorem mem_of_mem_downloadImage {c : Cache} {id k : String} {n1 n2 : Time}
    {e : DownloadEntry} (h : (k, e) ∈ (downloadImage c id n1 n2).2) : (k, e) ∈ c := by
  rcases hl : List.lookup id (cleanupExpiredCache n1 c) with _ | e'
  · rw [downloadImage_of_lookup_none hl] at h
    exact (mem_cleanup.mp h).1
  · by_cases hx : e'.expiry ≤ n2
    · rw [downloadImage_of_lookup_expired hl hx] at h
      exact (mem_cleanup.mp (mem_cacheErase.mp h).1).1
    · rw [downloadImage_of_lookup_live hl hx] at h
      exact (mem_cleanup.mp (mem_cacheErase.mp h).1).1

/-- Case analysis on the compress route: every error branch leaves the
swept cache, and the success branch renders the result summary and binds
the generated id to the new entry in the swept cache. -/
theorem compressImage_cases (req : CompressRequest) (c : Cache) (now : Time)
    (genId : String) :
    (∃ m, compressImage req c now genId =
        (.errorRedirect m, cleanupExpiredCache now c)) ∨
    compressImage req c now genId =
      (.resultPage (mkResult req genId),
       cacheSet (cleanupExpiredCache now c) genId (mkEntry req now)) := by
  unfold compressImage
  repeat' split
  all_goals first
    | exact .inl ⟨_, rfl⟩
    | exact .inr rfl

/-- The compress route binds at most its generated id. -/
theorem mem_of_mem_compressImage {req : CompressRequest} {c : Cache} {now : Time}
    {genId k : String} {e : DownloadEntry}
    (h : (k, e) ∈ (compressImage req c now genId).2) : (k, e) ∈ c ∨ k = genId := by
  rcases compressImage_cases req c now genId with ⟨m, hc⟩ | hc
  · rw [hc] at h
    exact .inl (mem_cleanup.mp h).1
  · rw [hc] at h
    rcases mem_cacheSet.mp h with ⟨hm, _⟩ | ⟨hk, _⟩
    · exact .inl (mem_cleanup.mp hm).1
    · exact .inr hk

/-- Inversion of a successful compression: all validation and transcode
steps passed, the rendered summary is mkResult and the new cache binds
the generated id to mkEntry in the swept cache. -/
theorem compressImage_success_inv {req : CompressRequest} {c : Cache} {now : Time}
    {genId : String} {r : ResultView} {c' : Cache}
    (h : compressImage req c now genId = (.resultPage r, c')) :
    req.hasFilePart = true ∧ req.filename ≠ "" ∧
    ALLOWED_OUTPUT_FORMATS.contains (effectiveFormat req) = true ∧
    req.verifyOk = true ∧ req.reopenOk = true ∧ req.encodeOk = true ∧
    r = mkResult req genId ∧
    c' = cacheSet (cleanupExpiredCache now c) genId (mkEntry req now) := by
  unfold compressImage at h
  repeat' split at h
  all_goals simp_all

/-- Forward direction of success: when every validation and transcode step
passes, the compress route renders mkResult and binds the generated id to
mkEntry in the swept cache. -/
theorem compressImage_success (req : CompressRequest) (c : Cache) (now : Time)
    (genId : String)
    (hfile : req.hasFilePart = true) (hname : req.filename ≠ "")
    (hfmt : ALLOWED_OUTPUT_FORMATS.contains (effectiveFormat req) = true)
    (hver : req.verifyOk = true) (hreo : req.reopenOk = true)
    (henc : req.encodeOk = true) :
    compressImage req c now genId =
      (.resultPage (mkResult req genId),
       cacheSet (cleanupExpiredCache now c) genId (mkEntry req now)) := by
  unfold compressImage
  simp [hfile, hname, hfmt, hver, hreo, henc]
  exact List.mem_of_elem_eq_true hfmt

/-- A key absent from the cache stays absent across any trace that never
stores an entry under it. -/
theorem runOps_preserves_absent {id : String} {ops : List Op} {c : Cache}
    (hc : ∀ e, (id, e) ∉ c) (hops : NoInsertOf id ops) :
    ∀ e, (id, e) ∉ runOps ops c := by
  induction ops generalizing c with
  | nil => exact hc
  | cons op rest ih =>
    have hop : op.insertedId ≠ some id := hops op (List.mem_cons_self _ _)
    have hrest : NoInsertOf id rest := fun o ho => hops o (List.mem_cons_of_mem _ ho)
    cases op with
    | download id' n1 n2 =>
      exact ih (fun e hmem => hc e (mem_of_mem_downloadImage hmem)) hrest
    | compress req now genId =>
      refine ih ?_ hrest
      intro e hmem
      rcases mem_of_mem_compressImage hmem with hm | hk
      · exact hc e hm
      · exact hop (by simp [Op.insertedId, hk])

/-- Lower bound of Python rounding: at least the floor. -/
theorem floor_le_pyRound (x : ℚ) : ⌊x⌋ ≤ pyRound x := by
  unfold pyRound
  split_ifs <;> omega

/-- Upper bound of Python rounding: at most the floor plus one. -/
theorem pyRound_le_floor_add_one (x : ℚ) : pyRound x ≤ ⌊x⌋ + 1 := by
  unfold pyRound
  split_ifs <;> omega

/-- Python's round-half-to-even is monotone. -/
theorem pyRound_mono {x y : ℚ} (h : x ≤ y) : pyRound x ≤ pyRound y := by
  have hf : ⌊x⌋ ≤ ⌊y⌋ := Int.floor_le_floor h
  rcases lt_or_eq_of_le hf with hlt | heq
  · calc pyRound x ≤ ⌊x⌋ + 1 := pyRound_le_floor_add_one x
      _ ≤ ⌊y⌋ := by omega
      _ ≤ pyRound y := floor_le_pyRound y
  · unfold pyRound
    rw [← heq]
    split_ifs <;> first | omega | linarith

/-- C1: a download id whose entry is present and unexpired is served on
the first pop; afterwards, across any further requests that do not insert
under that id, popping it again yields the NotFound outcome ("no longer
available"), so a popped entry never resurrects. -/
theorem claim_C1_pop_consumes_once (c : Cache) (id : String) (e : DownloadEntry)
    (t u : Time) (ops : List Op)
    (hmem : List.lookup id c = some e) (hlive : ¬ e.expiry ≤ t)
    (hops : NoInsertOf id ops) :
    (downloadImage c id t t).1 = .served e.payload e.mimetype e.filename ∧
    (downloadImage (runOps ops (downloadImage c id t t).2) id u u).1 =
      .errorRedirect MSG_UNAVAILABLE := by
  have hl : List.lookup id (cleanupExpiredCache t c) = some e :=
    lookup_cleanup_live hmem hlive
  constructor
  · rw [downloadImage_of_lookup_live hl hlive]
  · have habs : ∀ e', (id, e') ∉ runOps ops (downloadImage c id t t).2 :=
      runOps_preserves_absent downloadImage_self_absent hops
    have hnone :
        List.lookup id
          (cleanupExpiredCache u (runOps ops (downloadImage c id t t).2)) = none := by
      rw [lookup_eq_none_iff]
      intro e' hmem'
      exact habs e' (mem_cleanup.mp hmem').1
    rw [downloadImage_of_lookup_none hnone]

/-- Witness for C1 at a concrete cache: the entry expiring at 10 is
served at time 3 and the second pop at time 4 is NotFound. -/
theorem claim_C1_witness :
    List.lookup "a" [("a", entryW)] = some entryW ∧
    ¬ entryW.expiry ≤ (3 : Int) ∧
    (downloadImage [("a", entryW)] "a" 3 3).1 =
      .served entryW.payload entryW.mimetype entryW.filename ∧
    (downloadImage (runOps [] (downloadImage [("a", entryW)] "a" 3 3).2) "a" 4 4).1 =
      .errorRedirect MSG_UNAVAILABLE := by
  refine ⟨by decide, by decide, ?_, ?_⟩
  · exact (claim_C1_pop_consumes_once [("a", entryW)] "a" entryW 3 4 []
      (by decide) (by decide) (fun op h => absurd h (List.not_mem_nil op))).1
  · exact (claim_C1_pop_consumes_once [("a", entryW)] "a" entryW 3 4 []
      (by decide) (by decide) (fun op h => absurd h (List.not_mem_nil op))).2

/-- C2: an entry inserted by a successful compression at time t0 carries
expiry t0 + TTL; any download of its id at a strictly later time than
t0 + TTL yields the NotFound outcome and leaves the id unbound; the sweep
keeps exactly the bindings whose expiry exceeds its now; and the pop-time
check yields the expired outcome whenever the popped entry's expiry is at
most the check's now, independently of the sweep. -/
theorem claim_C2_ttl_expiry (req : CompressRequest) (c : Cache) (t0 : Time)
    (genId : String) (r : ResultView) (c1 : Cache)
    (d : Cache) (k : String) (e' : DownloadEntry) (n n1 n2 now : Time)
    (hins : compressImage req c t0 genId = (.resultPage r, c1))
    (hlate : t0 + DOWNLOAD_CACHE_TTL_SECONDS < now)
    (hpop : List.lookup k (cleanupExpiredCache n1 d) = some e')
    (hexp : e'.expiry ≤ n2) :
    (downloadImage c1 genId now now).1 = .errorRedirect MSG_UNAVAILABLE ∧
    List.lookup genId (downloadImage c1 genId now now).2 = none ∧
    ((k, e') ∈ cleanupExpiredCache n d ↔ (k, e') ∈ d ∧ ¬ e'.expiry ≤ n) ∧
    (downloadImage d k n1 n2).1 = .errorRedirect MSG_EXPIRED := by
  obtain ⟨-, -, -, -, -, -, -, hc1⟩ := compressImage_success_inv hins
  have hallexp : ∀ e0, (genId, e0) ∈ c1 → e0.expiry ≤ now := by
    intro e0 hmem0
    rw [hc1] at hmem0
    rcases mem_cacheSet.mp hmem0 with ⟨-, hne⟩ | ⟨-, rfl⟩
    · exact absurd rfl hne
    · exact le_of_lt hlate
  have hnone : List.lookup genId (cleanupExpiredCache now c1) = none :=
    lookup_cleanup_none hallexp
  refine ⟨?_, ?_, mem_cleanup, ?_⟩
  · rw [downloadImage_of_lookup_none hnone]
  · rw [lookup_eq_none_iff]
    exact downloadImage_self_absent
  · rw [downloadImage_of_lookup_expired hpop hexp]

/-- Witness for C2: a successful insert at time 0 (TTL 300) whose id is
unavailable at time 301, plus the sweep membership and pop-time check at
a second concrete cache. -/
theorem claim_C2_witness :
    compressImage reqW [] 0 "a" =
      (.resultPage (mkResult reqW "a"), [("a", mkEntry reqW 0)]) ∧
    (0 : Int) + DOWNLOAD_CACHE_TTL_SECONDS < 301 ∧
    List.lookup "b" (cleanupExpiredCache 4 [("b", entryW)]) = some entryW ∧
    entryW.expiry ≤ (10 : Int) ∧
    ((downloadImage [("a", mkEntry reqW 0)] "a" 301 301).1 =
        .errorRedirect MSG_UNAVAILABLE ∧
      List.lookup "a" (downloadImage [("a", mkEntry reqW 0)] "a" 301 301).2 = none ∧
      (("b", entryW) ∈ cleanupExpiredCache 7 [("b", entryW)] ↔
        ("b", entryW) ∈ [("b", entryW)] ∧ ¬ entryW.expiry ≤ (7 : Int)) ∧
      (downloadImage [("b", entryW)] "b" 4 10).1 = .errorRedirect MSG_EXPIRED) := by
  refine ⟨by rfl, by decide, by decide, by decide, ?_⟩
  exact claim_C2_ttl_expiry reqW [] 0 "a" (mkResult reqW "a") [("a", mkEntry reqW 0)]
    [("b", entryW)] "b" entryW 7 4 10 301 (by rfl) (by decide) (by decide) (by decide)

/-- C3 counterexample: the insert performs a plain dict assignment with no
collision check.  When the generated id "x" collides with the key of a
live entry, the successful compression overwrites that entry and the
cache does not grow: its size stays 1, refuting both "an existing live
entry is never overwritten" and "grows the cache by exactly one entry". -/
theorem claim_C3_counterexample :
    (compressImage reqW [("x", oldEntryW)] 0 "x").1.isResult = true ∧
    List.lookup "x" [("x", oldEntryW)] = some oldEntryW ∧
    ¬ oldEntryW.expiry ≤ (0 : Int) ∧
    ((compressImage reqW [("x", oldEntryW)] 0 "x").2).length = 1 ∧
    List.lookup "x" (compressImage reqW [("x", oldEntryW)] 0 "x").2 =
      some (mkEntry reqW 0) ∧
    mkEntry reqW 0 ≠ oldEntryW := by decide

/-- C3 amended: on every successful compression the entry is stored under
the generated id with expiry equal to the insertion time plus the
configured TTL, and that id is the one reported to the caller; when the
generated id is not already a key of the swept cache, the cache grows by
exactly one entry (on the negligible-probability collision the code
overwrites the existing entry instead of rejecting or retrying). -/
theorem claim_C3_amended (req : CompressRequest) (c : Cache) (t0 : Time)
    (genId : String) (r : ResultView) (c1 : Cache)
    (hins : compressImage req c t0 genId = (.resultPage r, c1))
    (hfresh : ∀ e, (genId, e) ∉ cleanupExpiredCache t0 c) :
    (List.lookup genId c1).map DownloadEntry.expiry =
      some (t0 + DOWNLOAD_CACHE_TTL_SECONDS) ∧
    r.download_id = genId ∧
    c1.length = (cleanupExpiredCache t0 c).length + 1 := by
  obtain ⟨-, -, -, -, -, -, hr, hc1⟩ := compressImage_success_inv hins
  refine ⟨?_, ?_, ?_⟩
  · rw [hc1, lookup_cacheSet_self]
    rfl
  · rw [hr]
    rfl
  · rw [hc1]
    exact length_cacheSet_of_absent hfresh

/-- Witness for C3 amended: the insert at time 0 into the empty cache with
fresh id "a" stores expiry 300, reports "a", and grows the cache to one
entry. -/
theorem claim_C3_witness :
    compressImage reqW [] 0 "a" =
      (.resultPage (mkResult reqW "a"), [("a", mkEntry reqW 0)]) ∧
    ((List.lookup "a" [("a", mkEntry reqW 0)]).map DownloadEntry.expiry =
        some ((0 : Int) + DOWNLOAD_CACHE_TTL_SECONDS) ∧
      (mkResult reqW "a").download_id = "a" ∧
      ([("a", mkEntry reqW 0)] : Cache).length =
        (cleanupExpiredCache 0 []).length + 1) := by
  refine ⟨by rfl, ?_⟩
  exact claim_C3_amended reqW [] 0 "a" (mkResult reqW "a") [("a", mkEntry reqW 0)]
    (by rfl) (fun e h => absurd h (List.not_mem_nil _))

/-- C4 counterexample: a grayscale-plus-alpha (LA) source going to WEBP
has an alpha channel and a non-PNG target, yet the code's flattening
test only checks for the modes RGBA and P, so the image reaches the
encoder unconverted, still carrying alpha — refuting "if the source has
an alpha channel ... the image is flattened to opaque RGB before
encoding, so JPEG and WEBP output never contains an alpha channel". -/
theorem claim_C4_counterexample :
    specHasAlpha .LA = true ∧ ("WEBP" : String) ≠ "PNG" ∧
    convertForSave .LA "WEBP" = .LA ∧
    specHasAlpha (convertForSave .LA "WEBP") = true := by decide

/-- C4 amended: the flattening applies exactly to sources of mode RGBA or
palette mode P with a non-PNG target — those are converted to opaque RGB
before encoding — while a PNG target never converts, so any alpha channel
present in the input mode is preserved for PNG output.  Alpha-bearing
modes other than RGBA (such as LA or PA) are passed through unconverted
even for JPEG/WEBP targets. -/
theorem claim_C4_amended (mode : ImageMode) (fmt : String) (m2 : ImageMode)
    (h : mode = .RGBA ∨ mode = .P) (hf : fmt ≠ "PNG") :
    convertForSave mode fmt = .RGB ∧
    specHasAlpha (convertForSave mode fmt) = false ∧
    convertForSave m2 "PNG" = m2 := by
  have hc : convertForSave mode fmt = .RGB := by
    unfold convertForSave
    rw [if_pos ⟨h, hf⟩]
  refine ⟨hc, by rw [hc]; rfl, ?_⟩
  unfold convertForSave
  rw [if_neg (fun hh => hh.2 rfl)]

/-- Witness for C4 amended: an RGBA source going to JPEG is flattened to
RGB, and an LA source going to PNG is preserved unchanged. -/
theorem claim_C4_witness :
    ((ImageMode.RGBA = ImageMode.RGBA ∨ ImageMode.RGBA = ImageMode.P) ∧
      ("JPEG" : String) ≠ "PNG") ∧
    (convertForSave .RGBA "JPEG" = .RGB ∧
      specHasAlpha (convertForSave .RGBA "JPEG") = false ∧
      convertForSave .LA "PNG" = .LA) := by
  refine ⟨⟨.inl rfl, by decide⟩, ?_⟩
  exact claim_C4_amended .RGBA "JPEG" .LA (.inl rfl) (by decide)

/-- C5: for clamped qualities in [1,100] the PNG compression-effort level
is computed as the (half-to-even) rounding of (100 - q) / (100/9) clamped
to [0,9]; the level always lies in [0,9] and is monotonically
non-increasing in the requested quality. -/
theorem claim_C5_png_level (q q' : Int) (h1 : 1 ≤ q) (h2 : q ≤ 100)
    (h3 : q ≤ q') (h4 : q' ≤ 100) :
    pngCompressLevel q =
      max 0 (min 9 (pyRound (((100 - q : Int) : ℚ) / (100 / 9)))) ∧
    0 ≤ pngCompressLevel q ∧ pngCompressLevel q ≤ 9 ∧
    pngCompressLevel q' ≤ pngCompressLevel q := by
  refine ⟨rfl, le_max_left _ _, max_le (by norm_num) (min_le_left _ _), ?_⟩
  unfold pngCompressLevel
  have harg : (((100 - q' : Int) : ℚ) / (100 / 9)) ≤ (((100 - q : Int) : ℚ) / (100 / 9)) := by
    apply div_le_div_of_nonneg_right ?_ (by norm_num)
    have hq : ((q : ℚ)) ≤ ((q' : ℚ)) := by exact_mod_cast h3
    push_cast
    linarith
  exact max_le_max le_rfl (min_le_min le_rfl (pyRound_mono harg))

/-- Witness for C5: at qualities 30 and 60 the levels are 6 and 4,
inside [0,9] and non-increasing. -/
theorem claim_C5_witness :
    (1 : Int) ≤ 30 ∧ (30 : Int) ≤ 100 ∧ (30 : Int) ≤ 60 ∧ (60 : Int) ≤ 100 ∧
    (pngCompressLevel 30 =
        max 0 (min 9 (pyRound (((100 - 30 : Int) : ℚ) / (100 / 9)))) ∧
      0 ≤ pngCompressLevel 30 ∧ pngCompressLevel 30 ≤ 9 ∧
      pngCompressLevel 60 ≤ pngCompressLevel 30) := by
  refine ⟨by decide, by decide, by decide, by decide, ?_⟩
  exact claim_C5_png_level 30 60 (by decide) (by decide) (by decide) (by decide)

/-- C6: clamping any integer quality lands in [1,100] and is idempotent,
and both a missing and a non-numeric quality field parse to the default
40 before clamping. -/
theorem claim_C6_quality_clamp (q : Int) :
    1 ≤ clampQuality q ∧ clampQuality q ≤ 100 ∧
    clampQuality (clampQuality q) = clampQuality q ∧
    parseQuality none = 40 ∧ parseQuality (some none) = 40 := by
  have h1 : 1 ≤ clampQuality q := le_max_left _ _
  have h2 : clampQuality q ≤ 100 := max_le (by norm_num [MIN_QUALITY]) (min_le_left _ _)
  have h1' : MIN_QUALITY ≤ clampQuality q := h1
  have h2' : clampQuality q ≤ MAX_QUALITY := h2
  refine ⟨h1, h2, ?_, rfl, rfl⟩
  show max MIN_QUALITY (min MAX_QUALITY (clampQuality q)) = clampQuality q
  rw [min_eq_right h2', max_eq_right h1']

/-- C7: the compression percentage is 100 * (origKB - compKB) / origKB
when origKB is positive and exactly 0 when origKB is 0 (no division), and
the rendered summary exposes the original size, compressed size and
percentage each rounded to two decimal places. -/
theorem claim_C7_percentage (orig comp : ℚ) (req : CompressRequest) (c : Cache)
    (now : Time) (genId : String) (r : ResultView) (c' : Cache)
    (hpos : 0 < orig)
    (hsucc : compressImage req c now genId = (.resultPage r, c')) :
    compressionPercent orig comp = 100 * (orig - comp) / orig ∧
    compressionPercent 0 comp = 0 ∧
    r.original_kb = round2 (origSizeKB req) ∧
    r.compressed_kb = round2 (compressedSizeKB req) ∧
    r.percent = round2 (compressionPercent (origSizeKB req) (compressedSizeKB req)) := by
  obtain ⟨-, -, -, -, -, -, hr, -⟩ := compressImage_success_inv hsucc
  refine ⟨?_, ?_, ?_, ?_, ?_⟩
  · unfold compressionPercent
    rw [if_pos hpos]
  · unfold compressionPercent
    rw [if_neg (lt_irrefl 0)]
  · rw [hr]
    rfl
  · rw [hr]
    rfl
  · rw [hr]
    rfl

/-- Witness for C7: the concrete successful request of 2048 bytes yielding
2 bytes reports sizes 2 KB and 0 KB (after rounding) and percent 99.9. -/
theorem claim_C7_witness :
    (0 : ℚ) < 2 ∧
    compressImage reqW [] 0 "a" =
      (.resultPage (mkResult reqW "a"), [("a", mkEntry reqW 0)]) ∧
    (compressionPercent 2 1 = 100 * (2 - 1) / 2 ∧
      compressionPercent 0 1 = 0 ∧
      (mkResult reqW "a").original_kb = round2 (origSizeKB reqW) ∧
      (mkResult reqW "a").compressed_kb = round2 (compressedSizeKB reqW) ∧
      (mkResult reqW "a").percent =
        round2 (compressionPercent (origSizeKB reqW) (compressedSizeKB reqW))) := by
  refine ⟨by norm_num, by rfl, ?_⟩
  exact claim_C7_percentage 2 1 reqW [] 0 "a" (mkResult reqW "a")
    [("a", mkEntry reqW 0)] (by norm_num) (by rfl)

/-- C8: every failing upload request ends in an error redirect that
carries no download id, and leaves the cache exactly as the sweep of the
pre-request cache — the failure adds nothing and removes nothing beyond
already-expired entries. -/
theorem claim_C8_error_leaves_cache (req : CompressRequest) (c : Cache)
    (now : Time) (genId : String) (m : String)
    (herr : (compressImage req c now genId).1 = .errorRedirect m) :
    (compressImage req c now genId).2 = cleanupExpiredCache now c ∧
    CompressOutcome.downloadIdProduced (compressImage req c now genId).1 = none := by
  rcases compressImage_cases req c now genId with ⟨m', hc⟩ | hc
  · rw [hc]
    exact ⟨rfl, rfl⟩
  · rw [hc] at herr
    exact absurd herr (by simp)

/-- Witness for C8: a request with no file part against a cache holding
one live and one expired entry leaves exactly the live entry and yields
no download id. -/
theorem claim_C8_witness :
    (compressImage { reqW with hasFilePart := false }
        [("x", oldEntryW), ("y", entryW)] 20 "g").1 =
      .errorRedirect "No file part in request." ∧
    ((compressImage { reqW with hasFilePart := false }
          [("x", oldEntryW), ("y", entryW)] 20 "g").2 =
        cleanupExpiredCache 20 [("x", oldEntryW), ("y", entryW)] ∧
      CompressOutcome.downloadIdProduced
        (compressImage { reqW with hasFilePart := false }
          [("x", oldEntryW), ("y", entryW)] 20 "g").1 = none) := by
  refine ⟨by decide, ?_⟩
  exact claim_C8_error_leaves_cache { reqW with hasFilePart := false }
    [("x", oldEntryW), ("y", entryW)] 20 "g" "No file part in request." (by decide)

/-- C9 counterexample: with the clock advancing between the sweep and the
pop-time check, an entry that expires in that window is reported with the
distinct message "Download has expired.", while an absent id is reported
with "Download is no longer available or has expired." — the two failure
causes are distinguishable, refuting the claim that they always produce
the identical caller-visible outcome. -/
theorem claim_C9_counterexample :
    (downloadImage [("a", ⟨[1], "image/png", "compressed.png", 5⟩)] "a" 4 5).1 =
      .errorRedirect MSG_EXPIRED ∧
    (downloadImage [("a", ⟨[1], "image/png", "compressed.png", 5⟩)] "b" 4 5).1 =
      .errorRedirect MSG_UNAVAILABLE ∧
    (downloadImage [("a", ⟨[1], "image/png", "compressed.png", 5⟩)] "a" 4 5).1 ≠
      (downloadImage [("a", ⟨[1], "image/png", "compressed.png", 5⟩)] "b" 4 5).1 := by
  decide

/-- C9 amended: when the sweep and the pop-time check observe the same
clock value, an id that is absent and an id all of whose bindings are
already expired produce the identical generic outcome — the same
"no longer available" message, redirect, and post-request cache.  Only an
entry expiring strictly between the two clock readings of one request is
reported with the distinct "Download has expired." message. -/
theorem claim_C9_amended (c : Cache) (id : String) (now : Time)
    (h : ∀ e : DownloadEntry, (id, e) ∈ c → e.expiry ≤ now) :
    (downloadImage c id now now).1 = .errorRedirect MSG_UNAVAILABLE ∧
    (downloadImage c id now now).2 = cleanupExpiredCache now c := by
  have hnone : List.lookup id (cleanupExpiredCache now c) = none :=
    lookup_cleanup_none h
  rw [downloadImage_of_lookup_none hnone]
  exact ⟨rfl, rfl⟩

/-- Witness for C9 amended: at time 20, the id "y" (whose only binding
expired at 10) yields the generic unavailable outcome on the cache
holding "x" live and "y" expired. -/
theorem claim_C9_witness :
    (downloadImage [("x", oldEntryW), ("y", entryW)] "y" 20 20).1 =
      .errorRedirect MSG_UNAVAILABLE ∧
    (downloadImage [("x", oldEntryW), ("y", entryW)] "y" 20 20).2 =
      cleanupExpiredCache 20 [("x", oldEntryW), ("y", entryW)] :=
  claim_C9_amended [("x", oldEntryW), ("y", entryW)] "y" 20 (by
    intro e he
    rcases List.mem_cons.mp he with h1 | h2
    · exact absurd (show ("y" : String) = "x" from congrArg Prod.fst h1) (by decide)
    · rw [show e = entryW from congrArg Prod.snd (List.mem_singleton.mp h2)]
      decide)

/-- C10: every entry a successful compression stores carries the filename
"compressed." followed by the extension of the chosen output format and
the matching image mime type — one of (compressed.jpg, image/jpeg),
(compressed.png, image/png), (compressed.webp, image/webp) — and the
whole outcome is independent of the uploaded file's original name: the
same request under any other non-empty filename produces the same page
and the same cache. -/
theorem claim_C10_stored_name_mime (req : CompressRequest) (c : Cache)
    (now : Time) (genId : String) (r : ResultView) (c' : Cache) (name2 : String)
    (hsucc : compressImage req c now genId = (.resultPage r, c'))
    (hname : name2 ≠ "") :
    (List.lookup genId c').map (fun e => (e.filename, e.mimetype)) =
      some (outputFilename req, outputMimetype req) ∧
    ((effectiveFormat req = "JPEG" ∧
        (outputFilename req, outputMimetype req) = ("compressed.jpg", "image/jpeg")) ∨
     (effectiveFormat req = "PNG" ∧
        (outputFilename req, outputMimetype req) = ("compressed.png", "image/png")) ∨
     (effectiveFormat req = "WEBP" ∧
        (outputFilename req, outputMimetype req) = ("compressed.webp", "image/webp"))) ∧
    compressImage { req with filename := name2 } c now genId =
      compressImage req c now genId := by
  obtain ⟨hfile, hname0, hfmt, hver, hreo, henc, -, hc'⟩ := compressImage_success_inv hsucc
  have hfmt3 : effectiveFormat req = "JPEG" ∨ effectiveFormat req = "PNG" ∨
      effectiveFormat req = "WEBP" := by
    have := hfmt
    unfold ALLOWED_OUTPUT_FORMATS at this
    simpa using this
  refine ⟨?_, ?_, ?_⟩
  · rw [hc', lookup_cacheSet_self]
    rfl
  · rcases hfmt3 with hf | hf | hf
    · refine .inl ⟨hf, ?_⟩
      unfold outputFilename outputMimetype
      rw [hf]
      decide
    · refine .inr (.inl ⟨hf, ?_⟩)
      unfold outputFilename outputMimetype
      rw [hf]
      decide
    · refine .inr (.inr ⟨hf, ?_⟩)
      unfold outputFilename outputMimetype
      rw [hf]
      decide
  · rw [compressImage_success req c now genId hfile hname0 hfmt hver hreo henc]
    rw [compressImage_success { req with filename := name2 } c now genId
      hfile hname hfmt hver hreo henc]
    rfl

/-- Witness for C10: the concrete PNG request stores
(compressed.png, image/png) and renaming the upload to "other.bin"
changes nothing. -/
theorem claim_C10_witness :
    compressImage reqW [] 0 "a" =
      (.resultPage (mkResult reqW "a"), [("a", mkEntry reqW 0)]) ∧
    ("other.bin" : String) ≠ "" ∧
    ((List.lookup "a" ([("a", mkEntry reqW 0)] : Cache)).map
        (fun e => (e.filename, e.mimetype)) =
        some (outputFilename reqW, outputMimetype reqW) ∧
      ((effectiveFormat reqW = "JPEG" ∧
          (outputFilename reqW, outputMimetype reqW) = ("compressed.jpg", "image/jpeg")) ∨
       (effectiveFormat reqW = "PNG" ∧
          (outputFilename reqW, outputMimetype reqW) = ("compressed.png", "image/png")) ∨
       (effectiveFormat reqW = "WEBP" ∧
          (outputFilename reqW, outputMimetype reqW) = ("compressed.webp", "image/webp"))) ∧
      compressImage { reqW with filename := "other.bin" } [] 0 "a" =
        compressImage reqW [] 0 "a") := by
  refine ⟨by rfl, by decide, ?_⟩
  exact claim_C10_stored_name_mime reqW [] 0 "a" (mkResult reqW "a")
    [("a", mkEntry reqW 0)] "other.bin" (by rfl) (by decide)

end ImageCompressor
